import Mathlib

/-!
Shallow embedding of the Nigeria Sales Predictor web application
(`src/main.py`) for verifying its natural-language specification.

Modelling conventions:
* Python `datetime.strptime(date, '%Y-%m-%d')` is embedded as `parseDate`,
  a total function returning `Option SimpleDate`; `None` stands for the
  `ValueError` the source raises on an unparseable date.
* scikit-learn `LabelEncoder.transform` is embedded as `encodeLabel` over
  the encoder's ordered class list (`classes_`): the code of a label is its
  index in that list, `none` standing for the `ValueError` raised on an
  unseen label.
* pandas store lookup `stores_df[stores_df['city'] == city]` followed by
  `.iloc[0]` is embedded as `lookupStore`, taking the first matching row.
* Floating-point arithmetic of the revenue step (`np.expm1`, products) is
  idealised over the real numbers `ℝ`; the currency formatting of the
  result string is kept abstract in `DisplayResult.success`, which carries
  the numbers that the f-strings of the source would format.
* The single Python `try/except` of `predict_sales` is embedded as an
  `Except PredError` computation; each `raise` site of the source gets its
  own `PredError` constructor.
-/

namespace NigeriaSales

/-- Calendar date as produced by `datetime.strptime(date, '%Y-%m-%d')`. -/
structure SimpleDate where
  year : Nat
  month : Nat
  day : Nat
deriving DecidableEq, Repr

/-- Gregorian leap-year rule, as implemented by Python `datetime`. -/
def isLeap (y : Nat) : Bool := (y % 4 == 0 && y % 100 != 0) || y % 400 == 0

/-- Number of days in month `m` of year `y` (months are 1-based). -/
def daysInMonth (y m : Nat) : Nat :=
  if m = 2 then (if isLeap y then 29 else 28)
  else if m = 4 ∨ m = 6 ∨ m = 9 ∨ m = 11 then 30
  else 31

/-- Splits a character list on a separator; the list of groups is never
empty and adjacent separators yield empty groups, as in string `split`. -/
def splitOnChar (sep : Char) : List Char → List (List Char)
  | [] => [[]]
  | c :: cs =>
    if c = sep then [] :: splitOnChar sep cs
    else
      match splitOnChar sep cs with
      | [] => [[c]]
      | g :: gs => (c :: g) :: gs

/-- Accumulator pass of decimal digit parsing; `none` on a non-digit. -/
def parseDigitsAux : List Char → Nat → Option Nat
  | [], acc => some acc
  | c :: cs, acc =>
    if c.isDigit then parseDigitsAux cs (acc * 10 + (c.toNat - 48)) else none

/-- One numeric field of the `%Y-%m-%d` format: `minLen` to `maxLen`
digits, as the corresponding CPython `strptime` directive matches. -/
def parseField (minLen maxLen : Nat) (cs : List Char) : Option Nat :=
  if minLen ≤ cs.length ∧ cs.length ≤ maxLen then parseDigitsAux cs 0
  else none

/-- Embedding of `datetime.strptime(s, '%Y-%m-%d')`: three dash-separated
digit groups (`%Y` exactly four digits, `%m` and `%d` one or two),
validated as a real proleptic-Gregorian calendar date; `none` models the
`ValueError` raised by the source on any other input. -/
def parseDate (s : String) : Option SimpleDate :=
  match splitOnChar '-' s.data with
  | [ys, ms, ds] =>
    match parseField 4 4 ys, parseField 1 2 ms, parseField 1 2 ds with
    | some y, some m, some d =>
      if 1 ≤ y ∧ 1 ≤ m ∧ m ≤ 12 ∧ 1 ≤ d ∧ d ≤ daysInMonth y m then
        some ⟨y, m, d⟩
      else none
    | _, _, _ => none
  | _ => none

/-- Days in months `1 .. m-1` of year `y`. -/
def daysBeforeMonth (y m : Nat) : Nat :=
  ((List.range (m - 1)).map (fun k => daysInMonth y (k + 1))).sum

/-- 1-based ordinal of the date within its year (`dt.timetuple().tm_yday`). -/
def dayOfYear (dt : SimpleDate) : Nat := daysBeforeMonth dt.year dt.month + dt.day

/-- Leap days among years `1 .. n`. -/
def leapsBefore (n : Nat) : Nat := n / 4 - n / 100 + n / 400

/-- Proleptic-Gregorian ordinal of the date, with `0001-01-01` as day 1
(Python `date.toordinal`). -/
def rataDie (dt : SimpleDate) : Nat :=
  365 * (dt.year - 1) + leapsBefore (dt.year - 1) + dayOfYear dt

/-- Day of week with Monday = 0 .. Sunday = 6 (Python `date.weekday()`);
`0001-01-01` was a Monday. -/
def weekday (dt : SimpleDate) : Nat := (rataDie dt - 1) % 7

/-- The trained label encoders, `encoders.pkl` of the source: one ordered
class list per categorical field, mirroring `classes_` of each
scikit-learn `LabelEncoder`. -/
structure EncoderSet where
  city : List String
  family : List String
  type : List String

/-- Embedding of `LabelEncoder.transform([label])[0]`: the index of the
label in the ordered class list, `none` when the label is unseen (the
source raises `ValueError` there). -/
def encodeLabel : List String → String → Option Nat
  | [], _ => none
  | c :: cs, label =>
    if c = label then some 0 else (encodeLabel cs label).map (· + 1)

/-- Lines 147-151 of the source: encode the city if it is among the
encoder's known classes, otherwise encode the first known class instead.
`none` models the `IndexError` of `classes_[0]` on an empty encoder. -/
def safeCityCode (classes : List String) (city : String) : Option Nat :=
  if city ∈ classes then encodeLabel classes city
  else
    match classes with
    | [] => none
    | c0 :: cs => encodeLabel (c0 :: cs) c0

/-- One row of `stores_nigeria.csv` as used by the source. -/
structure StoreRow where
  city : String
  store_nbr : Nat
  cluster : Nat
  type : String
deriving DecidableEq

/-- The store attributes the feature builder extracts from a row. -/
structure StoreProfile where
  store_nbr : Nat
  cluster : Nat
  type : String
deriving DecidableEq

/-- Lines 138-145 of the source: the first row of the stores table whose
city matches, or the fixed default profile `(1, 1, 'D')` when no row
matches. -/
def lookupStore (stores : List StoreRow) (city : String) : StoreProfile :=
  match stores.find? (fun r => r.city == city) with
  | some r => ⟨r.store_nbr, r.cluster, r.type⟩
  | none => ⟨1, 1, "D"⟩

/-- Line 154 of the source:
`promo_map = {"no": 0.0, "yes": 10.0, "high": 50.0}` read with
`.get(promotion_status, 0.0)`. -/
def promoMap (s : String) : ℚ :=
  if s = "no" then 0 else if s = "yes" then 10 else if s = "high" then 50 else 0

/-- Line 102 of the source: `DEFAULT_OIL_PRICE = 50.0`. -/
def DEFAULT_OIL_PRICE : ℚ := 50

/-- The fixed-schema feature record of lines 158-176 of the source, in the
column order of the DataFrame. -/
structure PredictionFeatures where
  store_nbr : Nat
  family : Nat
  onpromotion : ℚ
  type : Nat
  cluster : Nat
  dcoilwtico : ℚ
  month : Nat
  day_of_month : Nat
  day_of_week : Nat
  day_of_year : Nat
  quarter : Nat
  is_weekend : Nat
  is_payday : Nat
  is_post_payday : Nat
  is_holiday_or_event : Nat
  city : Nat
  state : Nat
deriving DecidableEq

/-- Assembles the feature record exactly as lines 158-176 of the source
compute each column. -/
def mkFeatures (prof : StoreProfile) (familyCode : Nat) (promoVal : ℚ)
    (typeCode : Nat) (cityCode : Nat) (dt : SimpleDate) : PredictionFeatures :=
  { store_nbr := prof.store_nbr
    family := familyCode
    onpromotion := promoVal
    type := typeCode
    cluster := prof.cluster
    dcoilwtico := DEFAULT_OIL_PRICE
    month := dt.month
    day_of_month := dt.day
    day_of_week := weekday dt
    day_of_year := dayOfYear dt
    quarter := (dt.month - 1) / 3 + 1
    is_weekend := if weekday dt ≥ 5 then 1 else 0
    is_payday := if dt.day = 15 ∨ dt.day = 30 ∨ dt.day = 31 then 1 else 0
    is_post_payday := if dt.day = 1 ∨ dt.day = 16 then 1 else 0
    is_holiday_or_event := 0
    city := cityCode
    state := cityCode }

/-- The raise sites of `predict_sales`, one constructor per distinct
exception the single `try/except` of the source can catch. -/
inductive PredError
  | contextNotLoaded
  | emptyCityEncoder
  | malformedDate (s : String)
  | unknownFamily (f : String)
  | unknownType (t : String)
  | modelFailure (msg : String)
  | persistence
deriving DecidableEq

/-- The feature-building part of `predict_sales` (lines 138-176), with the
fallible steps in the evaluation order of the source: store lookup (total),
safe city encoding, date parse, family encoding, store-type encoding. -/
def buildFeatures (stores : List StoreRow) (encs : EncoderSet)
    (date city family promo : String) :
    Except PredError (SimpleDate × PredictionFeatures) :=
  match safeCityCode encs.city city with
  | none => .error .emptyCityEncoder
  | some cityCode =>
    match parseDate date with
    | none => .error (.malformedDate date)
    | some dt =>
      match encodeLabel encs.family family with
      | none => .error (.unknownFamily family)
      | some familyCode =>
        match encodeLabel encs.type (lookupStore stores city).type with
        | none => .error (.unknownType (lookupStore stores city).type)
        | some typeCode =>
          .ok (dt, mkFeatures (lookupStore stores city) familyCode
            (promoMap promo) typeCode cityCode dt)

/-- Lines 189-203 of the source: the static family → unit-price table. -/
def priceMap : List (String × Nat) :=
  [("AUTOMOTIVE", 4500), ("BABY CARE", 2500), ("BEAUTY", 3000),
   ("BEVERAGES", 1200), ("BOOKS", 2500), ("BREAD/BAKERY", 500),
   ("CELEBRATION", 2000), ("CLEANING", 1500), ("DAIRY", 1800),
   ("DELI", 2500), ("EGGS", 1200), ("FROZEN FOODS", 3500),
   ("GROCERY I", 2000), ("GROCERY II", 2000), ("HARDWARE", 8000),
   ("HOME AND KITCHEN I", 6000), ("HOME AND KITCHEN II", 6000),
   ("HOME APPLIANCES", 45000), ("HOME CARE", 1500),
   ("LADIESWEAR", 6500), ("LAWN AND GARDEN", 5000), ("LINGERIE", 4000),
   ("LIQUOR,WINE,BEER", 4500), ("MAGAZINES", 800), ("MEATS", 4500),
   ("PERSONAL CARE", 1800), ("PET SUPPLIES", 3000),
   ("PLAYERS AND ELECTRONICS", 25000), ("POULTRY", 4000),
   ("PREPARED FOODS", 2000), ("PRODUCE", 800),
   ("SCHOOL AND OFFICE SUPPLIES", 1200), ("SEAFOOD", 5500)]

/-- Line 205 of the source: `price_map.get(family, 1500)`. -/
def avgPrice (family : String) : Nat := (priceMap.lookup family).getD 1500

/-- Lines 181-182 of the source: `units_pred = max(0, expm1(log_pred))`,
idealised over the reals. -/
noncomputable def unitsPred (raw : ℝ) : ℝ := max 0 (Real.exp raw - 1)

/-- Lines 185-186 of the source: department scaling by the fixed
`CATEGORY_MULTIPLIER = 50`. -/
noncomputable def adjustedUnits (raw : ℝ) : ℝ := unitsPred raw * 50

/-- Line 206 of the source: `revenue = adjusted_units * avg_price`. -/
noncomputable def revenueFor (raw : ℝ) (family : String) : ℝ :=
  adjustedUnits raw * (avgPrice family : ℝ)

/-- Lines 81-92 of the source, `get_lazy_model` over an explicit state:
input state is the global `model` variable (`none` = not yet loaded),
output is (returned reference, new state, number of loads performed by
this call). `load ()` stands for `joblib.load('nigeria_sales_model.pkl',
mmap_mode='r')`. -/
def getLazyModel {M : Type} (load : Unit → M) : Option M → M × Option M × Nat
  | none => let m := load (); (m, some m, 1)
  | some m => (m, some m, 0)

/-- `N` successive calls of `get_lazy_model` threaded through the global
state: the list of returned references, the final state, and the total
number of loads performed. -/
def runCalls {M : Type} (load : Unit → M) : Nat → Option M → List M × Option M × Nat
  | 0, st => ([], st, 0)
  | n + 1, st =>
    let step := getLazyModel load st
    let rest := runCalls load n step.2.1
    (step.1 :: rest.1, rest.2.1, step.2.2 + rest.2.2)

/-- Outcome of the module-level startup block (lines 61-75 of the source):
either the encoders, the stores table and the sorted city list all loaded,
or the except-branch ran, leaving `encoders = None` and `all_cities = []`. -/
inductive Startup
  | ok (encs : EncoderSet) (stores : List StoreRow) (cities : List String)
  | failed

/-- Insertion of a string into a sorted list, for `sorted(...)`. -/
def insertSorted (s : String) : List String → List String
  | [] => [s]
  | t :: ts => if s ≤ t then s :: t :: ts else t :: insertSorted s ts

/-- Embedding of Python `sorted` on a list of strings. -/
def sortStrings : List String → List String
  | [] => []
  | s :: ss => insertSorted s (sortStrings ss)

/-- The city dropdown of the form page: `all_cities`. -/
def readFormCities : Startup → List String
  | .ok _ _ cities => cities
  | .failed => []

/-- The family dropdown of the form page, lines 111 and 223 of the source:
`sorted(encoders['family'].classes_) if encoders else []`. -/
def readFormFamilies : Startup → List String
  | .ok encs _ _ => sortStrings encs.family
  | .failed => []

/-- The user-visible result pair (`formatted_result`, `detail_text`).
`success revenue adjUnits price` stands for the formatted strings
`"₦ {revenue:,.2f}"` and `"Forecast: {int(adjusted_units):,} items (Dept.
Total) × ₦{avg_price:,}/item"`; the currency formatting itself is kept
abstract. `failure msg` stands for `formatted_result = msg` together with
`detail_text = "Please check logs."`. -/
inductive DisplayResult
  | success (revenue adjUnits : ℝ) (price : Nat)
  | failure (msg : String)

/-- The `str(e)` text of each raise site, used in `f"Error: {str(e)}"`. -/
def errText : PredError → String
  | .contextNotLoaded => "name stores_df is not defined"
  | .emptyCityEncoder => "index 0 is out of bounds"
  | .malformedDate s => "time data " ++ s ++ " does not match format %Y-%m-%d"
  | .unknownFamily f => "y contains previously unseen labels: " ++ f
  | .unknownType t => "y contains previously unseen labels: " ++ t
  | .modelFailure msg => msg
  | .persistence => "could not connect to server"

/-- A row of the `prediction_history` table (lines 33-40 of the source),
as written by a successful request: `date_input`, `city`, `family`,
`sales_prediction`. The server-assigned id and timestamp are external. -/
structure PredictionRecord where
  date_input : SimpleDate
  city : String
  family : String
  sales_prediction : ℝ

/-- The template context returned by `predict_sales` (lines 220-230). -/
structure Response where
  cities : List String
  families : List String
  prediction : DisplayResult
  selected_city : String
  selected_family : String
  selected_date : String
  selected_promo : String

/-- The body of the `try` block of `predict_sales` (lines 133-213):
feature building, model scoring (`modelFn`, which may fail like the opaque
model), revenue computation, then the history-log write. `persistOk`
models whether `db.add`/`db.commit` succeeds; on `False` the write raises
and nothing is committed. Returns the display result and the new log. -/
noncomputable def predictAttempt (encs : EncoderSet) (stores : List StoreRow)
    (modelFn : PredictionFeatures → Except String ℝ) (persistOk : Bool)
    (db : List PredictionRecord) (date city family promo : String) :
    Except PredError (DisplayResult × List PredictionRecord) :=
  match buildFeatures stores encs date city family promo with
  | .error e => .error e
  | .ok (dt, feats) =>
    match modelFn feats with
    | .error msg => .error (.modelFailure msg)
    | .ok raw =>
      let revenue := revenueFor raw family
      if persistOk then
        .ok (.success revenue (adjustedUnits raw) (avgPrice family),
          db ++ [⟨dt, city, family, revenue⟩])
      else .error .persistence

/-- The whole POST handler `predict_sales` (lines 123-230): run the `try`
body; on any error the except-branch substitutes the error-prefixed
message and leaves the log untouched; either way the template context
echoes the literal inputs back. A `Startup.failed` state makes the first
statement of the `try` body raise (the stores/encoders globals are
unusable), exactly as in the source. -/
noncomputable def predictSales (st : Startup)
    (modelFn : PredictionFeatures → Except String ℝ) (persistOk : Bool)
    (db : List PredictionRecord) (date city family promo : String) :
    Response × List PredictionRecord :=
  let attempt : Except PredError (DisplayResult × List PredictionRecord) :=
    match st with
    | .failed => .error .contextNotLoaded
    | .ok encs stores _ =>
      predictAttempt encs stores modelFn persistOk db date city family promo
  match attempt with
  | .ok (disp, db2) =>
    ({ cities := readFormCities st, families := readFormFamilies st,
       prediction := disp, selected_city := city, selected_family := family,
       selected_date := date, selected_promo := promo }, db2)
  | .error e =>
    ({ cities := readFormCities st, families := readFormFamilies st,
       prediction := .failure ("Error: " ++ errText e),
       selected_city := city, selected_family := family,
       selected_date := date, selected_promo := promo }, db)

/-- Concrete encoder set used to instantiate the general theorems. -/
def encs0 : EncoderSet :=
  ⟨["Abuja", "Lagos"], ["BEVERAGES", "GROCERY I"], ["A", "D"]⟩

/-- Concrete stores table used to instantiate the general theorems. -/
def stores0 : List StoreRow := [⟨"Lagos", 2, 3, "A"⟩]

theorem encodeLabel_self_head (c : String) (cs : List String) :
    encodeLabel (c :: cs) c = some 0 := by
  simp [encodeLabel]

theorem encodeLabel_isSome_of_mem {classes : List String} {l : String}
    (h : l ∈ classes) : ∃ k, encodeLabel classes l = some k := by
  induction classes with
  | nil => cases h
  | cons c cs ih =>
    by_cases hc : c = l
    · exact ⟨0, by simp [encodeLabel, hc]⟩
    · rcases List.mem_cons.mp h with h1 | h2
      · exact absurd h1.symm hc
      · rcases ih h2 with ⟨k, hk⟩
        exact ⟨k + 1, by simp [encodeLabel, hc, hk]⟩

theorem safeCityCode_isSome {classes : List String} (city : String)
    (h : classes ≠ []) : ∃ k, safeCityCode classes city = some k := by
  unfold safeCityCode
  by_cases hm : city ∈ classes
  · rcases encodeLabel_isSome_of_mem hm with ⟨k, hk⟩
    exact ⟨k, by simp [hm, hk]⟩
  · cases classes with
    | nil => exact absurd rfl h
    | cons c0 cs => exact ⟨0, by simp [hm, encodeLabel_self_head]⟩

/-- Inversion principle for the feature builder: success means every
fallible step succeeded and the features are assembled by `mkFeatures`. -/
theorem buildFeatures_ok_iff (stores : List StoreRow) (encs : EncoderSet)
    (date city family promo : String) (dt : SimpleDate)
    (feats : PredictionFeatures) :
    buildFeatures stores encs date city family promo = .ok (dt, feats) ↔
      ∃ k fc tc, safeCityCode encs.city city = some k ∧
        parseDate date = some dt ∧
        encodeLabel encs.family family = some fc ∧
        encodeLabel encs.type (lookupStore stores city).type = some tc ∧
        feats = mkFeatures (lookupStore stores city) fc (promoMap promo) tc k dt := by
  unfold buildFeatures
  cases hc : safeCityCode encs.city city with
  | none => simp [hc]
  | some k =>
    cases hd : parseDate date with
    | none => simp [hc, hd]
    | some dt2 =>
      cases hf : encodeLabel encs.family family with
      | none => simp [hc, hd, hf]
      | some fc =>
        cases ht : encodeLabel encs.type (lookupStore stores city).type with
        | none => simp [hc, hd, hf, ht]
        | some tc =>
          simp only [hc, hd, hf, ht, Except.ok.injEq, Prod.mk.injEq,
            Option.some.injEq]
          constructor
          · rintro ⟨h1, h2⟩
            subst h1
            exact ⟨k, fc, tc, rfl, rfl, rfl, rfl, h2.symm⟩
          · rintro ⟨k2, fc2, tc2, hk2, hd2, hf2, ht2, hfe⟩
            cases hk2; cases hd2; cases hf2; cases ht2
            exact ⟨rfl, hfe.symm⟩

/-- Inversion principle for feature-builder failure. -/
theorem buildFeatures_error_iff (stores : List StoreRow) (encs : EncoderSet)
    (date city family promo : String) (e : PredError) :
    buildFeatures stores encs date city family promo = .error e ↔
      (safeCityCode encs.city city = none ∧ e = .emptyCityEncoder) ∨
      ((∃ k, safeCityCode encs.city city = some k) ∧ parseDate date = none ∧
        e = .malformedDate date) ∨
      ((∃ k, safeCityCode encs.city city = some k) ∧
        (∃ dt, parseDate date = some dt) ∧
        encodeLabel encs.family family = none ∧ e = .unknownFamily family) ∨
      ((∃ k, safeCityCode encs.city city = some k) ∧
        (∃ dt, parseDate date = some dt) ∧
        (∃ fc, encodeLabel encs.family family = some fc) ∧
        encodeLabel encs.type (lookupStore stores city).type = none ∧
        e = .unknownType (lookupStore stores city).type) := by
  unfold buildFeatures
  cases hc : safeCityCode encs.city city with
  | none => simp [hc, eq_comm]
  | some k =>
    cases hd : parseDate date with
    | none => simp [hc, hd, eq_comm]
    | some dt2 =>
      cases hf : encodeLabel encs.family family with
      | none => simp [hc, hd, hf, eq_comm]
      | some fc =>
        cases ht : encodeLabel encs.type (lookupStore stores city).type with
        | none => simp [hc, hd, hf, ht, eq_comm]
        | some tc => simp [hc, hd, hf, ht]

/-- C3: for every string input city, encoding the city feature never
raises when the trained city encoder is nonempty (as any trained
scikit-learn label encoder is): if the city is a known class the result is
its trained code, otherwise it is the code of the first class in the
encoder's ordering; and on any successful feature build both the `city`
and `state` slots receive this same safely-encoded code. -/
theorem C3_safe_city_encoding (stores : List StoreRow) (encs : EncoderSet)
    (date city family promo : String) (hcity : encs.city ≠ []) :
    ∃ k, safeCityCode encs.city city = some k ∧
      (city ∈ encs.city → encodeLabel encs.city city = some k) ∧
      (city ∉ encs.city → ∀ c0 cs, encs.city = c0 :: cs →
        encodeLabel encs.city c0 = some k) ∧
      (∀ dt feats,
        buildFeatures stores encs date city family promo = .ok (dt, feats) →
        feats.city = k ∧ feats.state = k) := by
  rcases safeCityCode_isSome city hcity with ⟨k, hk⟩
  refine ⟨k, hk, ?_, ?_, ?_⟩
  · intro hm
    unfold safeCityCode at hk
    simpa [hm] using hk
  · intro hm c0 cs hcl
    rw [hcl] at hk hm ⊢
    unfold safeCityCode at hk
    rw [if_neg hm] at hk
    exact hk
  · intro dt feats h
    rcases (buildFeatures_ok_iff stores encs date city family promo dt
      feats).mp h with ⟨k2, fc, tc, hk2, _, _, _, hfe⟩
    rw [hk] at hk2
    cases hk2
    subst hfe
    exact ⟨rfl, rfl⟩

theorem C3_safe_city_encoding_witness :
    ∃ k, safeCityCode encs0.city "Zamfara" = some k ∧
      ("Zamfara" ∈ encs0.city → encodeLabel encs0.city "Zamfara" = some k) ∧
      ("Zamfara" ∉ encs0.city → ∀ c0 cs, encs0.city = c0 :: cs →
        encodeLabel encs0.city c0 = some k) ∧
      (∀ dt feats,
        buildFeatures stores0 encs0 "2017-08-16" "Zamfara" "GROCERY I" "no" =
          .ok (dt, feats) →
        feats.city = k ∧ feats.state = k) :=
  C3_safe_city_encoding stores0 encs0 "2017-08-16" "Zamfara" "GROCERY I" "no"
    (by decide)

theorem find?_first {α : Type} (p : α → Bool) (pre : List α) (r : α)
    (post : List α) (hr : p r = true) (hpre : ∀ q ∈ pre, p q = false) :
    (pre ++ r :: post).find? p = some r := by
  induction pre with
  | nil => exact List.find?_cons_of_pos post hr
  | cons q qs ih =>
    rw [List.cons_append, List.find?_cons_of_neg]
    · exact ih (fun a ha => hpre a (List.mem_cons_of_mem q ha))
    · simp [hpre q (List.mem_cons_self q qs)]

/-- C5: store resolution returns the profile of the first row of the
stores table whose city matches the requested city, and the fixed default
profile `(1, 1, 'D')` when no row matches. -/
theorem C5_store_resolution (stores : List StoreRow) (city : String) :
    ((∀ r ∈ stores, r.city ≠ city) →
      lookupStore stores city = ⟨1, 1, "D"⟩) ∧
    (∀ pre r post, stores = pre ++ r :: post → r.city = city →
      (∀ q ∈ pre, q.city ≠ city) →
      lookupStore stores city = ⟨r.store_nbr, r.cluster, r.type⟩) := by
  constructor
  · intro h
    unfold lookupStore
    have hn : stores.find? (fun r => r.city == city) = none := by
      rw [List.find?_eq_none]
      intro x hx
      simpa using h x hx
    rw [hn]
  · intro pre r post hs hr hpre
    subst hs
    unfold lookupStore
    have hf : (pre ++ r :: post).find? (fun q => q.city == city) = some r :=
      find?_first _ pre r post (by simp [hr])
        (fun q hq => by simpa using hpre q hq)
    rw [hf]

theorem C5_store_resolution_witness :
    lookupStore stores0 "Kano" = ⟨1, 1, "D"⟩ ∧
    lookupStore stores0 "Lagos" = ⟨2, 3, "A"⟩ :=
  ⟨(C5_store_resolution stores0 "Kano").1 (by decide),
   (C5_store_resolution stores0 "Lagos").2 [] ⟨"Lagos", 2, 3, "A"⟩ []
     rfl rfl (by decide)⟩

/-- C4: with the trained city encoder nonempty and the resolved store's
type encodable (both true of the shipped artifacts, which the repository
does not include under version control), the feature-building step fails
if and only if the date string does not parse in the expected format or
the family label is not encodable; and the error is then the
malformed-date or the unknown-family error. In particular an unknown
family has no fallback and always fails. -/
theorem C4_feature_build_error_iff (stores : List StoreRow)
    (encs : EncoderSet) (date city family promo : String)
    (hcity : encs.city ≠ [])
    (htype : ∃ tc, encodeLabel encs.type (lookupStore stores city).type =
      some tc) :
    ((∃ e, buildFeatures stores encs date city family promo = .error e) ↔
      (parseDate date = none ∨ encodeLabel encs.family family = none)) ∧
    (∀ e, buildFeatures stores encs date city family promo = .error e →
      e = .malformedDate date ∨ e = .unknownFamily family) := by
  rcases safeCityCode_isSome city hcity with ⟨k, hk⟩
  rcases htype with ⟨tc, ht⟩
  constructor
  · constructor
    · rintro ⟨e, he⟩
      rw [buildFeatures_error_iff] at he
      rcases he with ⟨h1, _⟩ | ⟨_, h2, _⟩ | ⟨_, _, h3, _⟩ | ⟨_, _, _, h4, _⟩
      · rw [hk] at h1; cases h1
      · exact Or.inl h2
      · exact Or.inr h3
      · rw [ht] at h4; cases h4
    · rintro (hd | hf)
      · exact ⟨.malformedDate date, (buildFeatures_error_iff stores encs date
          city family promo _).mpr (Or.inr (Or.inl ⟨⟨k, hk⟩, hd, rfl⟩))⟩
      · cases hd2 : parseDate date with
        | none => exact ⟨.malformedDate date, (buildFeatures_error_iff stores
            encs date city family promo _).mpr
            (Or.inr (Or.inl ⟨⟨k, hk⟩, hd2, rfl⟩))⟩
        | some dt => exact ⟨.unknownFamily family, (buildFeatures_error_iff
            stores encs date city family promo _).mpr (Or.inr (Or.inr
            (Or.inl ⟨⟨k, hk⟩, ⟨dt, hd2⟩, hf, rfl⟩)))⟩
  · intro e he
    rw [buildFeatures_error_iff] at he
    rcases he with ⟨h1, _⟩ | ⟨_, _, h2⟩ | ⟨_, _, _, h3⟩ | ⟨_, _, _, h4, _⟩
    · rw [hk] at h1; cases h1
    · exact Or.inl h2
    · exact Or.inr h3
    · rw [ht] at h4; cases h4

theorem C4_feature_build_error_iff_witness :
    ((∃ e, buildFeatures stores0 encs0 "16-08-2017" "Lagos" "GROCERY I"
        "no" = .error e) ↔
      (parseDate "16-08-2017" = none ∨
        encodeLabel encs0.family "GROCERY I" = none)) ∧
    (∀ e, buildFeatures stores0 encs0 "16-08-2017" "Lagos" "GROCERY I"
        "no" = .error e →
      e = .malformedDate "16-08-2017" ∨ e = .unknownFamily "GROCERY I") :=
  C4_feature_build_error_iff stores0 encs0 "16-08-2017" "Lagos" "GROCERY I"
    "no" (by decide) ⟨0, by decide⟩

/-- C2 counterexample: the source maps the literal `"standard"` through
the silent default to `0.0`, not to `10.0` as claimed; the keys of the
promotion table are `"no"`, `"yes"`, `"high"`. -/
theorem C2_promo_counterexample :
    promoMap "standard" = 0 ∧ promoMap "standard" ≠ 10 ∧
    promoMap "none" = 0 ∧ promoMap "yes" = 10 := by
  refine ⟨by decide, by decide, by decide, by decide⟩

/-- C2 (amended): the promotion intensity feature is computed by the
mapping `no → 0.0`, `yes → 10.0`, `high → 50.0`, and any other literal
value (including `none` and `standard`) maps to `0.0` as a silent
default, never an error; every successful feature build carries exactly
this value in its `onpromotion` slot. -/
theorem C2_promo_mapping :
    promoMap "no" = 0 ∧ promoMap "yes" = 10 ∧ promoMap "high" = 50 ∧
    (∀ s, s ≠ "no" → s ≠ "yes" → s ≠ "high" → promoMap s = 0) ∧
    (∀ stores encs date city family promo dt feats,
      buildFeatures stores encs date city family promo = .ok (dt, feats) →
      feats.onpromotion = promoMap promo) := by
  refine ⟨by decide, by decide, by decide, ?_, ?_⟩
  · intro s h1 h2 h3
    simp [promoMap, h1, h2, h3]
  · intro stores encs date city family promo dt feats h
    rcases (buildFeatures_ok_iff stores encs date city family promo dt
      feats).mp h with ⟨k, fc, tc, _, _, _, _, hfe⟩
    subst hfe
    rfl

theorem C2_promo_mapping_witness : promoMap "standard" = 0 :=
  C2_promo_mapping.2.2.2.1 "standard" (by decide) (by decide) (by decide)

theorem lookup_eq_none_of_not_mem_keys :
    ∀ (l : List (String × Nat)) (a : String),
      a ∉ l.map Prod.fst → l.lookup a = none
  | [], _, _ => rfl
  | (k, v) :: ps, a, h => by
    simp only [List.map_cons, List.mem_cons, not_or] at h
    have hne : (a == k) = false := beq_eq_false_iff_ne.mpr h.1
    simp only [List.lookup, hne]
    exact lookup_eq_none_of_not_mem_keys ps a h.2

/-- C1 counterexample: the static price table of the source has 33
entries, not 32 as claimed. -/
theorem C1_price_table_counterexample :
    priceMap.length = 33 ∧ priceMap.length ≠ 32 := by
  constructor <;> decide

/-- C1 (amended): the Revenue Estimator computes
`units = max(0, expm1(r))`, which is never negative and is 0 whenever
`expm1(r) < 0`; it multiplies by the fixed department multiplier 50 and
by the family's unit price from the static 33-entry price table, with
default price 1500 for families absent from the table; for raw output
`log(101)` and family `GROCERY I` this gives `units_pred = 100`,
`adjusted_units = 5000`, `revenue = 10,000,000`. -/
theorem C1_revenue_estimator (r : ℝ) (f : String) :
    0 ≤ unitsPred r ∧
    (Real.exp r - 1 < 0 → unitsPred r = 0) ∧
    revenueFor r f = unitsPred r * 50 * (avgPrice f : ℝ) ∧
    priceMap.length = 33 ∧
    (f ∉ priceMap.map Prod.fst → avgPrice f = 1500) ∧
    avgPrice "GROCERY I" = 2000 ∧
    unitsPred (Real.log 101) = 100 ∧
    adjustedUnits (Real.log 101) = 5000 ∧
    revenueFor (Real.log 101) "GROCERY I" = 10000000 := by
  have hu : unitsPred (Real.log 101) = 100 := by
    unfold unitsPred
    rw [Real.exp_log (by norm_num : (0 : ℝ) < 101),
      show (101 : ℝ) - 1 = 100 by norm_num,
      max_eq_right (by norm_num : (0 : ℝ) ≤ 100)]
  refine ⟨le_max_left 0 _, ?_, rfl, by decide, ?_, by decide, hu, ?_, ?_⟩
  · intro h
    exact max_eq_left h.le
  · intro h
    unfold avgPrice
    rw [lookup_eq_none_of_not_mem_keys priceMap f h]
    rfl
  · unfold adjustedUnits
    rw [hu]; norm_num
  · unfold revenueFor adjustedUnits
    rw [hu, show avgPrice "GROCERY I" = 2000 from by decide]
    norm_num

theorem C1_revenue_estimator_witness :
    unitsPred (-1) = 0 ∧ avgPrice "NOODLES" = 1500 :=
  ⟨(C1_revenue_estimator (-1) "NOODLES").2.1
    (by
      have h1 : Real.exp (-1 : ℝ) < 1 := Real.exp_lt_one_iff.mpr (by norm_num)
      linarith),
   (C1_revenue_estimator (-1) "NOODLES").2.2.2.2.1 (by decide)⟩

theorem runCalls_loaded {M : Type} (load : Unit → M) :
    ∀ (n : Nat) (m : M),
      runCalls load n (some m) = (List.replicate n m, some m, 0)
  | 0, _ => rfl
  | n + 1, m => by
    simp [runCalls, getLazyModel, runCalls_loaded load n m, List.replicate]

/-- C8: starting from the uninitialized state, `N ≥ 1` calls of the lazy
model accessor perform exactly one underlying load (on the first call)
and every call returns the same loaded reference; moreover any number of
calls from an already-loaded state performs zero loads. -/
theorem C8_lazy_model_idempotent {M : Type} (load : Unit → M) (N : Nat)
    (h : 1 ≤ N) :
    runCalls load N none = (List.replicate N (load ()), some (load ()), 1) ∧
    ∀ m : M, runCalls load N (some m) = (List.replicate N m, some m, 0) := by
  cases N with
  | zero => exact absurd h (by decide)
  | succ n =>
    constructor
    · simp [runCalls, getLazyModel, runCalls_loaded load n (load ()),
        List.replicate]
    · intro m
      exact runCalls_loaded load (n + 1) m

theorem C8_lazy_model_idempotent_witness :
    runCalls (fun _ => (42 : Nat)) 3 none = ([42, 42, 42], some 42, 1) ∧
    runCalls (fun _ => (42 : Nat)) 3 (some 7) = ([7, 7, 7], some 7, 0) := by
  have h := C8_lazy_model_idempotent (fun _ => (42 : Nat)) 3 (by decide)
  exact ⟨by simpa using h.1, by simpa using h.2 7⟩

theorem weekday_lt_7 (dt : SimpleDate) : weekday dt < 7 :=
  Nat.mod_lt _ (by decide)

/-- C9: on every successful feature build, the calendar fields satisfy
`quarter = (month-1)/3 + 1`, `is_weekend = 1` iff the weekday
(Monday = 0 .. Sunday = 6) is 5 or 6 and 0 otherwise, `is_payday = 1` iff
the day of month is 15, 30 or 31, `is_post_payday = 1` iff the day of
month is 1 or 16, and the holiday/event flag is always 0. -/
theorem C9_calendar_features (stores : List StoreRow) (encs : EncoderSet)
    (date city family promo : String) (dt : SimpleDate)
    (feats : PredictionFeatures)
    (h : buildFeatures stores encs date city family promo = .ok (dt, feats)) :
    feats.quarter = (dt.month - 1) / 3 + 1 ∧
    feats.is_weekend = (if weekday dt = 5 ∨ weekday dt = 6 then 1 else 0) ∧
    feats.is_payday =
      (if dt.day = 15 ∨ dt.day = 30 ∨ dt.day = 31 then 1 else 0) ∧
    feats.is_post_payday = (if dt.day = 1 ∨ dt.day = 16 then 1 else 0) ∧
    feats.is_holiday_or_event = 0 := by
  rcases (buildFeatures_ok_iff stores encs date city family promo dt
    feats).mp h with ⟨k, fc, tc, _, _, _, _, hfe⟩
  subst hfe
  refine ⟨rfl, ?_, rfl, rfl, rfl⟩
  have hw : weekday dt < 7 := weekday_lt_7 dt
  show (if weekday dt ≥ 5 then 1 else 0) = _
  by_cases h5 : 5 ≤ weekday dt
  · rw [if_pos h5, if_pos (by omega)]
  · rw [if_neg h5, if_neg (by omega)]

/-- The parsed date of the concrete end-to-end scenario. -/
def dtW : SimpleDate := ⟨2017, 8, 16⟩

/-- The feature record the source builds for the concrete scenario. -/
def featsW : PredictionFeatures := mkFeatures ⟨2, 3, "A"⟩ 1 0 0 1 dtW

theorem C9_calendar_features_witness :
    featsW.quarter = (dtW.month - 1) / 3 + 1 ∧
    featsW.is_weekend = (if weekday dtW = 5 ∨ weekday dtW = 6 then 1 else 0) ∧
    featsW.is_payday =
      (if dtW.day = 15 ∨ dtW.day = 30 ∨ dtW.day = 31 then 1 else 0) ∧
    featsW.is_post_payday = (if dtW.day = 1 ∨ dtW.day = 16 then 1 else 0) ∧
    featsW.is_holiday_or_event = 0 :=
  C9_calendar_features stores0 encs0 "2017-08-16" "Lagos" "GROCERY I" "no"
    dtW featsW (by rfl)

/-- C6: for every prediction request (with the startup context loaded),
the literal inputs are always echoed back in the response; and either the
attempt failed, the visible result is an error-prefixed string and the
history log is unchanged, or the attempt succeeded, the visible result
carries the computed revenue and exactly one record is appended, bearing
the literal input city and family and the computed revenue. -/
theorem C6_orchestrator_persistence (encs : EncoderSet)
    (stores : List StoreRow) (cities : List String)
    (modelFn : PredictionFeatures → Except String ℝ) (persistOk : Bool)
    (db : List PredictionRecord) (date city family promo : String)
    (resp : Response) (db2 : List PredictionRecord)
    (h : predictSales (.ok encs stores cities) modelFn persistOk db date
      city family promo = (resp, db2)) :
    (resp.selected_city = city ∧ resp.selected_family = family ∧
      resp.selected_date = date ∧ resp.selected_promo = promo) ∧
    ((∃ msg, resp.prediction = .failure ("Error: " ++ msg) ∧ db2 = db) ∨
     (∃ dt feats raw,
        buildFeatures stores encs date city family promo = .ok (dt, feats) ∧
        modelFn feats = .ok raw ∧ persistOk = true ∧
        resp.prediction = .success (revenueFor raw family)
          (adjustedUnits raw) (avgPrice family) ∧
        db2 = db ++ [⟨dt, city, family, revenueFor raw family⟩])) := by
  unfold predictSales predictAttempt at h
  cases hb : buildFeatures stores encs date city family promo with
  | error e =>
    simp only [hb] at h
    injection h with h1 h2
    subst h1; subst h2
    exact ⟨⟨rfl, rfl, rfl, rfl⟩, Or.inl ⟨errText e, rfl, rfl⟩⟩
  | ok p =>
    obtain ⟨dt, feats⟩ := p
    simp only [hb] at h
    cases hm : modelFn feats with
    | error msg =>
      simp only [hm] at h
      injection h with h1 h2
      subst h1; subst h2
      exact ⟨⟨rfl, rfl, rfl, rfl⟩,
        Or.inl ⟨errText (.modelFailure msg), rfl, rfl⟩⟩
    | ok raw =>
      cases persistOk with
      | false =>
        simp only [hm, Bool.false_eq_true, if_false] at h
        injection h with h1 h2
        subst h1; subst h2
        exact ⟨⟨rfl, rfl, rfl, rfl⟩, Or.inl ⟨errText .persistence, rfl, rfl⟩⟩
      | true =>
        simp only [hm, if_true] at h
        injection h with h1 h2
        subst h1; subst h2
        exact ⟨⟨rfl, rfl, rfl, rfl⟩,
          Or.inr ⟨dt, feats, raw, rfl, hm, rfl, rfl, rfl⟩⟩

/-- The concrete successful request of the end-to-end scenario, with a
model stub returning raw output 0. -/
noncomputable def predW : Response × List PredictionRecord :=
  predictSales (.ok encs0 stores0 ["Lagos"]) (fun _ => .ok 0) true []
    "2017-08-16" "Lagos" "GROCERY I" "no"

theorem C6_orchestrator_persistence_witness :
    ((predW.1.selected_city = "Lagos" ∧
      predW.1.selected_family = "GROCERY I" ∧
      predW.1.selected_date = "2017-08-16" ∧
      predW.1.selected_promo = "no") ∧
     ((∃ msg, predW.1.prediction = .failure ("Error: " ++ msg) ∧
        predW.2 = []) ∨
      (∃ dt feats raw,
        buildFeatures stores0 encs0 "2017-08-16" "Lagos" "GROCERY I" "no" =
          .ok (dt, feats) ∧
        (Except.ok (0 : ℝ) : Except String ℝ) = .ok raw ∧
        true = true ∧
        predW.1.prediction = .success (revenueFor raw "GROCERY I")
          (adjustedUnits raw) (avgPrice "GROCERY I") ∧
        predW.2 = [] ++ [⟨dt, "Lagos", "GROCERY I",
          revenueFor raw "GROCERY I"⟩]))) :=
  C6_orchestrator_persistence encs0 stores0 ["Lagos"] (fun _ => .ok 0) true
    [] "2017-08-16" "Lagos" "GROCERY I" "no" predW.1 predW.2 rfl

/-- C7 evaluation at the failing input: when the history-log write fails
after the prediction has been computed, the source's single `try/except`
replaces the computed result with the error-prefixed string, so the
caller never receives the prediction (and nothing is persisted). The
claim says the result must still be returned; the code does not do so. -/
theorem C7_persistence_failure_discards_result :
    (predictSales (.ok encs0 stores0 ["Lagos"]) (fun _ => .ok 0) false []
        "2017-08-16" "Lagos" "GROCERY I" "no").1.prediction =
      .failure ("Error: " ++ errText .persistence) ∧
    (predictSales (.ok encs0 stores0 ["Lagos"]) (fun _ => .ok 0) false []
        "2017-08-16" "Lagos" "GROCERY I" "no").2 = [] := by
  constructor <;> rfl

/-- C10: when the startup block fails (encoders left unset), the form
page still renders with an empty family list and an empty city list, and
every prediction request returns an error-message response with the log
untouched and the inputs echoed, instead of an unhandled exception. -/
theorem C10_startup_failure_is_safe :
    readFormFamilies .failed = [] ∧ readFormCities .failed = [] ∧
    ∀ (modelFn : PredictionFeatures → Except String ℝ) (persistOk : Bool)
      (db : List PredictionRecord) (date city family promo : String),
      (predictSales .failed modelFn persistOk db date city family
        promo).2 = db ∧
      (predictSales .failed modelFn persistOk db date city family
        promo).1.prediction =
        .failure ("Error: " ++ errText .contextNotLoaded) ∧
      (predictSales .failed modelFn persistOk db date city family
        promo).1.families = [] ∧
      (predictSales .failed modelFn persistOk db date city family
        promo).1.cities = [] ∧
      (predictSales .failed modelFn persistOk db date city family
        promo).1.selected_city = city :=
  ⟨rfl, rfl, fun _ _ _ _ _ _ _ => ⟨rfl, rfl, rfl, rfl, rfl⟩⟩

end NigeriaSales
